import Mathlib

/-!
Verification development for the tabular analytics engine of the
education-statistics dashboard backend.  The three analytics modules
(`employment_trends.py`, `salary_correlation.py`, `enrollment_analysis.py`)
are shallowly embedded below: pandas series cells are `Option ℚ`
(`none` = NaN/missing), float values that can be non-finite are `PyFloat`,
JSON leaf values are `JV := Option PyFloat` (`none` = Python `None`),
and fallible query functions return `Except PyErr _`.
All arithmetic is exact rational arithmetic; the float computations of the
source involve no catastrophic rounding on the inputs considered here.
-/

set_option maxRecDepth 4000
set_option maxHeartbeats 1000000

namespace Analytics

/-- Python float values as they can appear in a pandas cell or a result
structure: NaN, plus/minus infinity, or a finite number (modelled exactly
as a rational). -/
inductive PyFloat where
  | nan
  | inf
  | ninf
  | num (q : ℚ)
deriving DecidableEq, Repr

/-- A JSON leaf value of a result structure: `none` is Python `None`
(serialized as null); `some f` is a float (which may be NaN or ±inf if the
code lets one through). -/
abbrev JV := Option PyFloat

/-- Python exceptions that the embedded functions can raise. -/
inductive PyErr where
  | nameError (s : String)
  | valueError
  | indexError
  | linAlgError
deriving DecidableEq, Repr

/-- Round a rational to the nearest integer, ties to even — the rounding
used by Python `round`, `numpy.round` and pandas `.round`. -/
def rhe (q : ℚ) : ℤ :=
  let f := ⌊q⌋
  let r := q - mkRat f 1
  if r < 1/2 then f
  else if (1:ℚ)/2 < r then f + 1
  else if f % 2 = 0 then f else f + 1

/-- Round a rational to `d` decimal places, ties to even (Python
`round(x, d)` / pandas `.round(d)`). -/
def roundTo (d : ℕ) (q : ℚ) : ℚ :=
  mkRat (rhe (q * 10 ^ d)) (10 ^ d)

/-- Truncation toward zero, as Python `int()` applied to a float. -/
def truncQ (q : ℚ) : ℤ :=
  if 0 ≤ q then ⌊q⌋ else ⌈q⌉

/-! ### Character-list string helpers

The pandas string operations used by the cleaners are modelled over
`List Char` so that every concrete evaluation reduces in the kernel. -/

/-- Replace every (left-to-right, non-overlapping) occurrence of `pat` by
`rep`, as Python `str.replace` / pandas `.str.replace(..., regex=False)`.
`fuel` bounds the recursion by the length of the subject string. -/
def repAllAux (pat rep : List Char) : ℕ → List Char → List Char
  | 0, s => s
  | _ + 1, [] => []
  | fuel + 1, c :: rest =>
    if pat.isPrefixOf (c :: rest) ∧ pat.length ≠ 0 then
      rep ++ repAllAux pat rep fuel ((c :: rest).drop pat.length)
    else
      c :: repAllAux pat rep fuel rest

/-- String replacement (all occurrences), Python `str.replace`. -/
def strReplace (s pat rep : String) : String :=
  ⟨repAllAux pat.data rep.data s.data.length s.data⟩

/-- Lexicographic code-point comparison of strings, as Python `<=` on
`str` (used by pandas when sorting string group keys). -/
def chListLe : List Char → List Char → Bool
  | [], _ => true
  | _ :: _, [] => false
  | a :: as, b :: bs =>
    if a.val < b.val then true
    else if b.val < a.val then false
    else chListLe as bs

/-- String `≤` by code points. -/
def strLeB (a b : String) : Bool := chListLe a.data b.data

/-- Integer `≤` as a Bool, for sorting year keys. -/
def intLeB (a b : ℤ) : Bool := a ≤ b

/-- Parse the digits of a character list as a natural number. -/
def digitsVal (s : List Char) : ℕ :=
  s.foldl (fun a c => a * 10 + (c.toNat - 48)) 0

/-- Parse an unsigned decimal literal (`123`, `12.5`, `.5`, `12.`),
returning `none` when the characters do not form such a literal. -/
def parseUnsigned (s : List Char) : Option ℚ :=
  let ip := s.takeWhile (·.isDigit)
  let rest := s.dropWhile (·.isDigit)
  match rest with
  | [] => if ip.isEmpty then none else some (mkRat (digitsVal ip) 1)
  | '.' :: fp =>
    if fp.all (·.isDigit) ∧ ¬(ip.isEmpty ∧ fp.isEmpty) then
      some (mkRat (digitsVal ip) 1 + mkRat (digitsVal fp) (10 ^ fp.length))
    else none
  | _ => none

/-- Numeric parse of one cell, modelling `pd.to_numeric(..., errors="coerce")`
on a single value: surrounding spaces are ignored, an optional sign and a
decimal literal yield a number, the token `nan` (any case) and every other
unparsable string coerce to NaN (`none`). -/
def parseNumeric (s : String) : Option ℚ :=
  let t := ((s.data.dropWhile (· = ' ')).reverse.dropWhile (· = ' ')).reverse
  if (t.map Char.toLower) = ['n', 'a', 'n'] then none
  else
    match t with
    | '+' :: r => parseUnsigned r
    | '-' :: r => (parseUnsigned r).map (fun q => -q)
    | r => parseUnsigned r

/-- Python `str()` of one pandas cell, as `series.astype(str)` does it:
a missing cell prints as `"nan"`. -/
def pyStr : Option String → String
  | none => "nan"
  | some s => s

/-! ### Pandas primitives -/

/-- Mean of a series, skipping missing values; an all-missing (or empty)
series has mean NaN.  Models `Series.mean()` and the groupby `mean`
reducer. -/
def pmean (l : List (Option ℚ)) : Option ℚ :=
  let v := l.filterMap id
  if v.isEmpty then none else some (v.sum / v.length)

/-- Sum of a series, skipping missing values; with pandas' default
`min_count=0` an all-missing (or empty) series sums to `0`, not NaN.
Models `Series.sum()` and the groupby `sum` reducer. -/
def psum (l : List (Option ℚ)) : ℚ :=
  (l.filterMap id).sum

/-- `pd.notna` on a float value. -/
def pfNotna : PyFloat → Bool
  | .nan => false
  | _ => true

/-- Mean of a float series that may contain infinities (skipna): NaN is
skipped, an inf and a -inf together give NaN, a single-signed inf
dominates. -/
def pfMean (l : List PyFloat) : PyFloat :=
  let v := l.filter pfNotna
  if v.isEmpty then .nan
  else if v.contains PyFloat.inf ∧ v.contains PyFloat.ninf then .nan
  else if v.contains PyFloat.inf then .inf
  else if v.contains PyFloat.ninf then .ninf
  else
    .num ((v.filterMap (fun f => match f with | .num q => some q | _ => none)).sum / v.length)

/-- Keep the first occurrence of every element (pandas
`drop_duplicates` / the element order of a Python `set` built by first
occurrence). -/
def dedupFirst [DecidableEq α] (l : List α) : List α :=
  go l []
where
  go : List α → List α → List α
  | [], _ => []
  | x :: xs, seen =>
    if x ∈ seen then go xs seen else x :: go xs (x :: seen)

/-- Insert into a sorted list (stable: an equal element goes after the
existing ones only when `le x y` fails). -/
def insertB (le : α → α → Bool) (x : α) : List α → List α
  | [] => [x]
  | y :: ys => if le x y then x :: y :: ys else y :: insertB le x ys

/-- Stable insertion sort by a boolean `≤`. -/
def isortBy (le : α → α → Bool) : List α → List α
  | [] => []
  | x :: xs => insertB le x (isortBy le xs)

/-- Group rows by a key: one output group per distinct key, keys sorted
ascending (pandas `groupby(..., sort=True)`), each group holding its rows
in input order. -/
def pdGroupBy [DecidableEq K] (le : K → K → Bool) (key : R → K) (rows : List R) :
    List (K × List R) :=
  (isortBy le (dedupFirst (rows.map key))).map
    (fun k => (k, rows.filter (fun r => key r = k)))

/-- Left join keyed by an integer column, as `pd.merge(..., how="left")`:
every left row is emitted once per matching right row (in right-relation
order), or once with `none` when no right row matches.  Duplicate keys on
the right therefore fan the left row out. -/
def mergeLeft (keyL : α → ℤ) (keyR : β → ℤ) : List α → List β → List (α × Option β)
  | [], _ => []
  | a :: rest, right =>
    (match right.filter (fun b => keyR b = keyL a) with
     | [] => [(a, none)]
     | ms => ms.map (fun b => (a, some b))) ++ mergeLeft keyL keyR rest right

/-- Slope of the degree-1 least-squares fit of the points, in exact
arithmetic — the value `np.polyfit(x, y, 1)[0]` computes whenever at least
two distinct x occur. -/
def lsqSlope (pts : List (ℚ × ℚ)) : ℚ :=
  let n : ℚ := pts.length
  let sx := (pts.map Prod.fst).sum
  let sy := (pts.map Prod.snd).sum
  let sxy := (pts.map (fun p => p.1 * p.2)).sum
  let sxx := (pts.map (fun p => p.1 ^ 2)).sum
  (n * sxy - sx * sy) / (n * sxx - sx ^ 2)

/-! ### Exact arithmetic on `a / √D`

The Pearson coefficient is `sxy / √(sxx·syy)`, irrational in general; the
code rounds it to 3 decimal places.  The helpers below compute floors and
comparisons of `a / √D` (`D > 0`) exactly with integer arithmetic, so the
rounded coefficient is a computable rational. -/

/-- Decide `a / √D < t` for rationals with `D > 0`, by sign analysis and
squaring. -/
def ltDivSqrt (a D t : ℚ) : Bool :=
  if 0 ≤ a then
    if 0 ≤ t then decide (a ^ 2 < t ^ 2 * D) else false
  else
    if 0 ≤ t then true else decide (t ^ 2 * D < a ^ 2)

/-- Decide `a / √D = t` for rationals with `D > 0`. -/
def eqDivSqrt (a D t : ℚ) : Bool :=
  decide (0 ≤ a) = decide (0 ≤ t) ∧ a ^ 2 = t ^ 2 * D

/-- Heron iteration for the integer square root: from guess `g`, iterate
`g ← (g + n/g)/2` while it decreases; starting at `g = n ≥ 1` this
converges to `⌊√n⌋`.  The fuel only bounds the recursion. -/
def sqrtIter (n : ℕ) : ℕ → ℕ → ℕ
  | 0, g => g
  | fuel + 1, g =>
    let g' := (g + n / g) / 2
    if g' < g then sqrtIter n fuel g' else g

/-- `⌊√n⌋` by Heron iteration. -/
def natSqrt (n : ℕ) : ℕ :=
  if n ≤ 1 then n else sqrtIter n n n

/-- `⌊a / √D⌋` for rationals with `D > 0`.  Writing `a = p/q` and
`D = m/n`, the value is `p·√(nm) / (qm)`, whose floor is computed with
the integer square root. -/
def floorDivSqrt (a D : ℚ) : ℤ :=
  let p := a.num
  let c := ((a.den : ℤ) * D.num).toNat
  let s := (D.num * (D.den : ℤ)).toNat
  if 0 ≤ p then
    ((natSqrt (p.natAbs ^ 2 * s) / c : ℕ) : ℤ)
  else
    let N := p.natAbs ^ 2 * s
    let f := natSqrt N / c
    if N = (f * c) ^ 2 then -(f : ℤ) else -((f : ℤ) + 1)

/-- Round `a / √D` to the nearest integer, ties to even (`D > 0`). -/
def rheDivSqrt (a D : ℚ) : ℤ :=
  let f := floorDivSqrt a D
  if ltDivSqrt a D (mkRat (2 * f + 1) 2) then f
  else if eqDivSqrt a D (mkRat (2 * f + 1) 2) then (if f % 2 = 0 then f else f + 1)
  else f + 1

/-- `round(a / √D, 3)` as an exact rational (`D > 0`). -/
def round3DivSqrt (a D : ℚ) : ℚ :=
  mkRat (rheDivSqrt (1000 * a) D) 1000

end Analytics

namespace Analytics

/-! ## `backend/analytics/employment_trends.py` -/

namespace EmploymentTrends

/-- One raw row of `GES_cleaned.csv` (the SurveyRecord relation) as read
by `pd.read_csv`: `year` and `school_id` are integer columns, `school`
(the faculty column) and `degree` are strings, the rate and salary columns
are raw cells (string or missing). -/
structure GESRow where
  year : ℤ
  school_id : ℤ
  school : String
  degree : String
  employment_rate_overall : Option String
  employment_rate_ft_perm : Option String
  gross_monthly_median : Option String
  basic_monthly_median : Option String
deriving DecidableEq, Repr

/-- One row of `schools_lookup.csv` (the SchoolMapping relation). -/
structure LookupRow where
  school_id : ℤ
  school_name : String
deriving DecidableEq, Repr

/-- `clean_employment_column`: `astype(str)`, strip every `%`, delete the
substrings `"N.A."` and `"na"`, map the exact value `""` to NA, then
`pd.to_numeric(..., errors="coerce")`.  Commas are NOT stripped here. -/
def clean_employment_column (cell : Option String) : Option ℚ :=
  let s := pyStr cell
  let s := strReplace s "%" ""
  let s := strReplace s "N.A." ""
  let s := strReplace s "na" ""
  if s = "" then none else parseNumeric s

/-- One row of the per-year `trend` table inside `employment_trend`:
`(year, mean overall rate, mean ft-perm rate)`. -/
abbrev TrendRow := ℤ × Option ℚ × Option ℚ

/-- The `(year, overall)` pairs surviving
`dropna(subset=["year", "employment_rate_overall"])` (`year` is an
integer column, hence always present). -/
def validTrendPairs (trend : List TrendRow) : List (ℚ × ℚ) :=
  trend.filterMap (fun t => (t.2.1).map (fun v => (mkRat t.1 1, v)))

/-- `compute_trend_strength`: keep rows where `year` and
`employment_rate_overall` are non-missing, return `None` when fewer than
2 remain, else the least-squares slope rounded to 3 decimal places. -/
def compute_trend_strength (trend : List TrendRow) : Option ℚ :=
  if (validTrendPairs trend).length < 2 then none
  else some (roundTo 3 (lsqSlope (validTrendPairs trend)))

/-- The guarded stability-ratio computation of `employment_trend`
(lines 57–62): `None` unless both latest rates are non-missing and the
overall rate is nonzero, else `ft / overall`. -/
def stabilityOf (overall ft : Option ℚ) : JV :=
  match overall, ft with
  | some ov, some f => if ov ≠ 0 then some (.num (f / ov)) else none
  | _, _ => none

/-- A trend record after `trend.replace({np.nan: None})`: missing rates
become null. -/
structure TrendRowOut where
  year : ℤ
  employment_rate_overall : JV
  employment_rate_ft_perm : JV
deriving DecidableEq, Repr

/-- The `kpis` mapping of `employment_trend`.  The two average rates are
emitted unguarded (a NaN mean is passed through as NaN); the stability
ratio and trend strength are `None` when undefined. -/
structure TrendKpis where
  stabilityRatio : JV
  avg_employment_rate_overall : JV
  avg_employment_rate_ft_perm : JV
  trend_strength : JV
deriving DecidableEq, Repr

/-- The full `employment_trend` result. -/
structure TrendResult where
  trend : List TrendRowOut
  kpis : TrendKpis
deriving DecidableEq, Repr

/-- Emit a pandas cell directly into the result (no NaN guard): a missing
value leaks as float NaN. -/
def jvRaw : Option ℚ → JV
  | none => some .nan
  | some q => some (.num q)

/-- Emit a pandas cell after `replace({np.nan: None})` or an
`if pd.notna(...) else None` guard: a missing value becomes null. -/
def jvNull : Option ℚ → JV
  | none => none
  | some q => some (.num q)

/-- `employment_trend`: clean both rate columns, aggregate them by year
with mean (years ascending), take KPIs from the last (latest) year row and
the column means.  `trend.iloc[-1]` raises IndexError when the table is
empty. -/
def employment_trend (rows : List GESRow) : Except PyErr TrendResult :=
  let cleaned : List (ℤ × Option ℚ × Option ℚ) :=
    rows.map (fun r =>
      (r.year, clean_employment_column r.employment_rate_overall,
        clean_employment_column r.employment_rate_ft_perm))
  let trend : List TrendRow :=
    (pdGroupBy intLeB (fun c => c.1) cleaned).map
      (fun g => (g.1, pmean (g.2.map (fun c => c.2.1)), pmean (g.2.map (fun c => c.2.2))))
  match trend.getLast? with
  | none => .error .indexError
  | some latest =>
    .ok
      { trend := trend.map (fun t => ⟨t.1, jvNull t.2.1, jvNull t.2.2⟩)
        kpis :=
          { stabilityRatio := stabilityOf latest.2.1 latest.2.2
            avg_employment_rate_overall := jvRaw (pmean (trend.map (fun t => t.2.1)))
            avg_employment_rate_ft_perm := jvRaw (pmean (trend.map (fun t => t.2.2)))
            trend_strength := jvNull (compute_trend_strength trend) } }

/-- One entry of the `schools` list of `employment_by_school`: the rate
cells are appended to the result without a NaN guard. -/
structure SchoolRowOut where
  school : String
  employment_rate_overall : JV
  employment_rate_ft_perm : JV
deriving DecidableEq, Repr

/-- The `employment_by_school` result. -/
structure BySchoolResult where
  year : ℤ
  schools : List SchoolRowOut
  total_schools : ℕ
deriving DecidableEq, Repr

/-- Working row of `employment_by_school` after the left join and the
column cleaning. -/
structure WRow where
  school_name : Option String
  year : ℤ
  overall : Option ℚ
  ft : Option ℚ
deriving DecidableEq, Repr

/-- Descending order on the mean overall rate, missing last (pandas
`sort_values(..., ascending=False)` with the default `na_position`). -/
def schoolDesc (a b : (String × Option ℚ × Option ℚ)) : Bool :=
  match a.2.1, b.2.1 with
  | some x, some y => y ≤ x
  | some _, none => true
  | none, some _ => false
  | none, none => true

/-- `employment_by_school`: left-join the survey to the lookup on
`school_id`, clean the rate columns, keep one year, group by the resolved
school name (missing names are dropped by groupby), mean and round both
rates to 1 decimal place, sort descending by the overall rate, and emit
the rows (without any NaN guard). -/
def employment_by_school (rows : List GESRow) (lookup : List LookupRow)
    (year : ℤ) : BySchoolResult :=
  let merged := mergeLeft (fun r => r.school_id) (fun l => l.school_id) rows lookup
  let cleaned : List WRow :=
    merged.map (fun p =>
      ⟨(p.2).map (fun l => l.school_name), p.1.year,
        clean_employment_column p.1.employment_rate_overall,
        clean_employment_column p.1.employment_rate_ft_perm⟩)
  let yearRows := (cleaned.filter (fun c => c.year = year)).filter
    (fun c => c.school_name.isSome)
  let grouped := pdGroupBy strLeB (fun c : WRow => c.school_name.getD "") yearRows
  let breakdown : List (String × Option ℚ × Option ℚ) :=
    grouped.map (fun g =>
      (g.1, (pmean (g.2.map (fun c => c.overall))).map (roundTo 1),
        (pmean (g.2.map (fun c => c.ft))).map (roundTo 1)))
  let sorted := isortBy schoolDesc breakdown
  { year := year
    schools := sorted.map (fun b => ⟨b.1, jvRaw b.2.1, jvRaw b.2.2⟩)
    total_schools := sorted.length }

/-- The `employment_by_degree` result shape the function's own code
describes (its empty-result branches and final return). -/
structure ByDegreeResult where
  year : ℤ
  school : String
  metric_type : String
  degrees : List (String × JV)
  total_degrees : ℕ
deriving DecidableEq, Repr

/-- `employment_by_degree` as written: the function loads and joins its
inputs and cleans both rate columns (work with no effect on the outcome),
then line 162 evaluates `merged_df`, a name never assigned anywhere in the
module — every call therefore raises `NameError: name 'merged_df' is not
defined` before any filtering or aggregation happens. -/
def employment_by_degree (_rows : List GESRow) (_lookup : List LookupRow)
    (_year : ℤ) (_school_name : String) (_metric_type : String) :
    Except PyErr ByDegreeResult :=
  .error (.nameError "merged_df")

end EmploymentTrends

/-! ## `backend/analytics/salary_correlation.py` -/

namespace SalaryCorrelation

open EmploymentTrends (GESRow LookupRow jvRaw jvNull)

/-- `clean_numeric_column` of `salary_correlation.py`: `astype(str)`,
strip every `%` and every `,`, map the exact values `"N.A."`, `"na"`,
`"NA"`, `"-"` to NA, then `pd.to_numeric(..., errors="coerce")`. -/
def clean_numeric_column (cell : Option String) : Option ℚ :=
  let s := pyStr cell
  let s := strReplace s "%" ""
  let s := strReplace s "," ""
  if s = "N.A." ∨ s = "na" ∨ s = "NA" ∨ s = "-" then none
  else parseNumeric s

/-- The row-wise deletion of `calculate_correlation`: the index positions
where both arrays hold a number (`mask = ~(np.isnan(x) | np.isnan(y))`). -/
def validPairs (x y : List (Option ℚ)) : List (ℚ × ℚ) :=
  (x.zip y).filterMap
    (fun p => match p.1, p.2 with
      | some a, some b => some (a, b)
      | _, _ => none)

/-- `calculate_correlation`: drop the index positions where either array
is NaN; `None` when fewer than 2 pairs remain; otherwise the Pearson
coefficient `sxy / √(sxx·syy)` rounded to 3 decimal places, with the
code's `np.isnan` guard turning the zero-variance case (NaN coefficient)
into `None`.  The irrational coefficient is rounded exactly via
`round3DivSqrt`. -/
def calculate_correlation (x y : List (Option ℚ)) : Option ℚ :=
  let pairs := validPairs x y
  if pairs.length < 2 then none
  else
    let n : ℚ := pairs.length
    let xb := (pairs.map Prod.fst).sum / n
    let yb := (pairs.map Prod.snd).sum / n
    let sxx := (pairs.map (fun p => (p.1 - xb) ^ 2)).sum
    let syy := (pairs.map (fun p => (p.2 - yb) ^ 2)).sum
    let sxy := (pairs.map (fun p => (p.1 - xb) * (p.2 - yb))).sum
    if sxx = 0 ∨ syy = 0 then none
    else some (round3DivSqrt sxy (sxx * syy))

/-- Working row of `salary_employment_correlation` after the join and the
cleaning. -/
structure SRow where
  school_name : Option String
  school : String
  year : ℤ
  overall : Option ℚ
  ft : Option ℚ
  gross : Option ℚ
  basic : Option ℚ
deriving DecidableEq, Repr

/-- One aggregated faculty row of `analysis_df` (after rounding):
`(label, overall, ft, gross, basic)`. -/
structure ARow where
  label : String
  overall : Option ℚ
  ft : Option ℚ
  gross : Option ℚ
  basic : Option ℚ
deriving DecidableEq, Repr

/-- One scatter entry `{degree, employment_rate, median_salary}`. -/
structure ScatterRow where
  degree : String
  employment_rate : JV
  median_salary : JV
deriving DecidableEq, Repr

/-- The `{name, salary, employment_rate}` summary of the highest/lowest
salary group. -/
structure SalaryItem where
  name : String
  salary : JV
  employment_rate : JV
deriving DecidableEq, Repr

/-- The `statistics` mapping of `salary_employment_correlation`. -/
structure SalaryStats where
  avg_median_salary : JV
  avg_employment_rate : JV
  highest_salary_school : SalaryItem
  lowest_salary_school : SalaryItem
  total_schools_analyzed : ℕ
deriving DecidableEq, Repr

/-- The `salary_employment_correlation` result.  The textual
`interpretation` field is a pure function of `correlation_coefficient`
(`get_correlation_interpretation`) and is not modelled. -/
structure SalaryResult where
  year : ℤ
  available_years : List ℤ
  available_schools : List String
  selected_school : Option String
  data : List ScatterRow
  correlation_coefficient : Option ℚ
  statistics : SalaryStats
deriving DecidableEq, Repr

/-- Descending stable order on the median salary of a scatter entry
(Python `sorted(..., reverse=True)`); the sort key is always a finite
float there because rows missing the gross salary were dropped. -/
def scatterDesc (a b : ScatterRow) : Bool :=
  match a.median_salary, b.median_salary with
  | some (.num x), some (.num y) => y ≤ x
  | _, _ => true

/-- First index position holding the maximal (resp. minimal) value —
pandas `idxmax`/`idxmin` keep the first occurrence.  Returns the row. -/
def firstMaxBy (val : α → ℚ) : List α → Option α
  | [] => none
  | a :: rest =>
    match firstMaxBy val rest with
    | none => some a
    | some b => if val b > val a then some b else some a

/-- First row minimising `val` (pandas `idxmin`). -/
def firstMinBy (val : α → ℚ) : List α → Option α
  | [] => none
  | a :: rest =>
    match firstMinBy val rest with
    | none => some a
    | some b => if val b < val a then some b else some a

/-- `salary_employment_correlation`: left-join to the lookup, clean the
two rate and two salary columns, pick the requested year (the latest one
when none is requested — `max()` of an empty year list raises ValueError),
optionally filter to one resolved school name, drop rows missing the
overall rate or the gross salary, aggregate by the faculty column
(`school`) with mean, round (rates to 1 dp, salaries to 0 dp), correlate
mean salary against mean overall rate, and shape the result.  When the
aggregation is empty, `idxmax` on the empty salary column raises
ValueError. -/
def salary_employment_correlation (rows : List GESRow) (lookup : List LookupRow)
    (year? : Option ℤ) (school? : Option String) : Except PyErr SalaryResult :=
  let merged := mergeLeft (fun r => r.school_id) (fun l => l.school_id) rows lookup
  let cleaned : List SRow :=
    merged.map (fun p =>
      ⟨(p.2).map (fun l => l.school_name), p.1.school, p.1.year,
        clean_numeric_column p.1.employment_rate_overall,
        clean_numeric_column p.1.employment_rate_ft_perm,
        clean_numeric_column p.1.gross_monthly_median,
        clean_numeric_column p.1.basic_monthly_median⟩)
  let available_years := isortBy intLeB (dedupFirst (cleaned.map (fun c => c.year)))
  let available_schools :=
    isortBy strLeB (dedupFirst (cleaned.filterMap (fun c => c.school_name)))
  let yearE : Except PyErr ℤ :=
    match year? with
    | some y => .ok y
    | none =>
      match available_years.getLast? with
      | none => .error .valueError
      | some y => .ok y
  match yearE with
  | .error e => .error e
  | .ok year =>
    let year_df := cleaned.filter (fun c => c.year = year)
    let year_df :=
      match school? with
      | some s =>
        if s ≠ "" then year_df.filter (fun c : SRow => c.school_name = some s) else year_df
      | none => year_df
    let year_df := year_df.filter (fun c => c.overall.isSome ∧ c.gross.isSome)
    let analysis : List ARow :=
      (pdGroupBy strLeB (fun c : SRow => c.school) year_df).map (fun g =>
        ⟨g.1, (pmean (g.2.map (fun c => c.overall))).map (roundTo 1),
          (pmean (g.2.map (fun c => c.ft))).map (roundTo 1),
          (pmean (g.2.map (fun c => c.gross))).map (roundTo 0),
          (pmean (g.2.map (fun c => c.basic))).map (roundTo 0)⟩)
    let corr := calculate_correlation (analysis.map (fun a => a.gross))
      (analysis.map (fun a => a.overall))
    let scatter := isortBy scatterDesc
      (analysis.map (fun a => ⟨a.label, jvRaw a.overall, jvRaw a.gross⟩))
    match analysis with
    | [] => .error .valueError
    | _ =>
      let grossOf : ARow → ℚ := fun a => a.gross.getD 0
      let maxItem := (firstMaxBy grossOf analysis).getD ⟨"", none, none, none, none⟩
      let minItem := (firstMinBy grossOf analysis).getD ⟨"", none, none, none, none⟩
      .ok
        { year := year
          available_years := available_years
          available_schools := available_schools
          selected_school := school?
          data := scatter
          correlation_coefficient := corr
          statistics :=
            { avg_median_salary := jvNull ((pmean (analysis.map (fun a => a.gross))).map (roundTo 0))
              avg_employment_rate := jvNull ((pmean (analysis.map (fun a => a.overall))).map (roundTo 1))
              highest_salary_school := ⟨maxItem.label, jvRaw maxItem.gross, jvRaw maxItem.overall⟩
              lowest_salary_school := ⟨minItem.label, jvRaw minItem.gross, jvRaw minItem.overall⟩
              total_schools_analyzed := scatter.length } }

end SalaryCorrelation

/-! ## `backend/analytics/enrollment_analysis.py` -/

namespace EnrollmentAnalysis

/-- One raw row of `Enrolment_cleaned.csv`. -/
structure EnrolRow where
  year : ℤ
  sex : String
  school_id : ℤ
  school_name : String
  enrolment : Option String
deriving DecidableEq, Repr

/-- One raw row of `Graduates_cleaned.csv`. -/
structure GradRow where
  year : ℤ
  sex : String
  school_id : ℤ
  school_name : String
  graduates : Option String
deriving DecidableEq, Repr

/-- A cleaned working row: the count column coerced to numeric-or-missing. -/
structure CRow where
  year : ℤ
  school_id : ℤ
  school_name : String
  val : Option ℚ
deriving DecidableEq, Repr

/-- `clean_numeric_column` of `enrollment_analysis.py`: plain
`pd.to_numeric(..., errors="coerce")` (a missing cell stays missing). -/
def clean_numeric_column (cell : Option String) : Option ℚ :=
  cell.bind parseNumeric

/-- Clean the enrolment column and keep the `sex == "MF"` rows. -/
def cleanMF_enrol (rows : List EnrolRow) : List CRow :=
  (rows.filter (fun r => r.sex = "MF")).map
    (fun r => ⟨r.year, r.school_id, r.school_name, clean_numeric_column r.enrolment⟩)

/-- Clean the graduates column and keep the `sex == "MF"` rows. -/
def cleanMF_grad (rows : List GradRow) : List CRow :=
  (rows.filter (fun r => r.sex = "MF")).map
    (fun r => ⟨r.year, r.school_id, r.school_name, clean_numeric_column r.graduates⟩)

/-- The per-row completion rate
`(merged["graduates"] / merged["enrolment"] * 100).round(1)` with float
semantics: a missing operand gives NaN, division of a nonzero value by
zero gives ±inf (which `round` leaves alone), `0/0` gives NaN. -/
def completionOf (g e : Option ℚ) : PyFloat :=
  match g, e with
  | some gv, some ev =>
    if ev = 0 then
      (if gv = 0 then .nan else if 0 < gv then .inf else .ninf)
    else .num (roundTo 1 (gv / ev * 100))
  | _, _ => .nan

/-- One step of `pct_change` on the forward-filled series:
`(cur - prev) / prev * 100` with float semantics (NaN when the previous
value is still missing, ±inf on division of a nonzero value by zero). -/
def pctStep (prev cur : Option ℚ) : PyFloat :=
  match prev, cur with
  | some p, some c =>
    if p = 0 then (if c = 0 then .nan else if 0 < c then .inf else .ninf)
    else .num ((c - p) / p * 100)
  | _, _ => .nan

/-- `Series.pct_change() * 100` with the default forward-fill of missing
values (`fill_method="pad"`): each position is compared against the last
seen value; the first position is NaN. -/
def pctChangeAux : Option ℚ → List (Option ℚ) → List PyFloat
  | _, [] => []
  | prev, x :: xs =>
    let cur := match x with | none => prev | some v => some v
    pctStep prev cur :: pctChangeAux cur xs

/-- `pct_change` over a whole column (already scaled by 100). -/
def pct_change (l : List (Option ℚ)) : List PyFloat :=
  pctChangeAux none l

/-- The mask of `calculate_trend` (`mask = ~np.isnan(values)`): only the
VALUE positions are checked — a missing year at a kept position
survives. -/
def maskedPairs (years values : List (Option ℚ)) : List (Option ℚ × Option ℚ) :=
  (years.zip values).filter (fun p => p.2.isSome)

/-- `calculate_trend`: mask out the positions whose VALUE is missing (the
years at those positions are not inspected), return Python `None`
(`.ok none`) when fewer than 2 positions remain, and otherwise hand the
surviving pairs to `np.polyfit` — a missing year surviving the mask makes
the SVD inside `np.linalg.lstsq` fail, so `np.polyfit` raises
`numpy.linalg.LinAlgError` there; on NaN-free x the slope is returned
rounded to 1 decimal place. -/
def calculate_trend (years : List (Option ℚ)) (values : List (Option ℚ)) :
    Except PyErr (Option PyFloat) :=
  let valid := maskedPairs years values
  if valid.length < 2 then .ok none
  else if valid.any (fun p => p.1.isNone) then .error .linAlgError
  else
    .ok (some (.num (roundTo 1 (lsqSlope (valid.map (fun p => (p.1.getD 0, p.2.getD 0)))))))

/-- The qualitative branch taken by `get_trend_interpretation` (the
formatted message text itself is not modelled). -/
inductive TrendInterp where
  | insufficient
  | stable
  | increasing
  | decreasing
deriving DecidableEq, Repr

/-- `get_trend_interpretation`: `None` means insufficient data; a slope of
absolute value below 100 is stable; otherwise the sign decides.  A NaN
slope fails both comparisons and lands in the decreasing branch. -/
def get_trend_interpretation (slope : Option PyFloat) : TrendInterp :=
  match slope with
  | none => .insufficient
  | some (.num q) => if |q| < 100 then .stable else if 0 < q then .increasing else .decreasing
  | some .inf => .increasing
  | some .ninf => .decreasing
  | some .nan => .decreasing

/-- Guard `x if pd.notna(x) else None`: NaN becomes null, every other
float (including ±inf) passes through. -/
def jvGuard : PyFloat → JV
  | .nan => none
  | f => some f

/-- Guard `round(x, d) if pd.notna(x) else None`. -/
def jvGuardRound (d : ℕ) : PyFloat → JV
  | .nan => none
  | .num q => some (.num (roundTo d q))
  | f => some f

/-- Emit `int(x) if pd.notna(x) else None` for a pandas cell. -/
def jvTrunc : Option ℚ → JV
  | none => none
  | some q => some (.num (mkRat (truncQ q) 1))

/-- Lexicographic order on the `(school_id, school_name)` group key. -/
def idNameLe (a b : ℤ × String) : Bool :=
  if a.1 < b.1 then true
  else if b.1 < a.1 then false
  else strLeB a.2 b.2

/-- Descending order on the summed enrolment, missing last
(`sort_values("enrolment", ascending=False)`). -/
def enrolDesc (a b : (ℤ × String) × Option ℚ × Option ℚ) : Bool :=
  match a.2.1, b.2.1 with
  | some x, some y => y ≤ x
  | some _, none => true
  | none, some _ => false
  | none, none => true

/-- One row of the school breakdown: the summed totals are rendered with
`int(...) if pd.notna(...) else 0` — an absent total becomes the integer
`0`, never null. -/
structure BreakRow where
  school_id : ℤ
  school_name : String
  total_enrolment : ℤ
  total_graduates : ℤ
  completion_rate : JV
deriving DecidableEq, Repr

/-- `get_school_breakdown`: sum each count by `(school_id, school_name)`,
outer-merge the two aggregates on that key, compute the completion rate,
sort by enrolment descending, and render (missing totals as `0`).  The
`start_year`/`end_year` arguments are accepted and unused, as in the
source. -/
def get_school_breakdown (enrol grad : List CRow) (_start_year _end_year : ℤ) :
    List BreakRow :=
  let e := (pdGroupBy idNameLe (fun c : CRow => (c.school_id, c.school_name)) enrol).map
    (fun g => (g.1, psum (g.2.map (fun c => c.val))))
  let gr := (pdGroupBy idNameLe (fun c : CRow => (c.school_id, c.school_name)) grad).map
    (fun g => (g.1, psum (g.2.map (fun c => c.val))))
  let keys := dedupFirst (e.map Prod.fst ++ gr.map Prod.fst)
  let merged : List ((ℤ × String) × Option ℚ × Option ℚ) :=
    keys.map (fun k =>
      (k, (e.find? (fun p => p.1 = k)).map Prod.snd,
        (gr.find? (fun p => p.1 = k)).map Prod.snd))
  let sorted := isortBy enrolDesc merged
  sorted.map (fun m =>
    ⟨m.1.1, m.1.2, ((m.2.1).map truncQ).getD 0, ((m.2.2).map truncQ).getD 0,
      jvGuard (completionOf m.2.2 m.2.1)⟩)

/-- One entry of the `data` list of `enrollment_graduate_analysis`. -/
structure EGRow where
  year : ℤ
  school_name : String
  enrolment : JV
  graduates : JV
  completion_rate : JV
  enrolment_growth : JV
  graduates_growth : JV
deriving DecidableEq, Repr

/-- The `statistics` mapping of `enrollment_graduate_analysis`. -/
structure EGStats where
  total_enrolment : JV
  total_graduates : JV
  enrolment_trend : Option PyFloat
  graduates_trend : Option PyFloat
  enrolment_trend_interpretation : TrendInterp
  graduates_trend_interpretation : TrendInterp
deriving DecidableEq, Repr

/-- The `enrollment_graduate_analysis` result. -/
structure EGResult where
  start_year : ℤ
  end_year : ℤ
  school_name : String
  available_years : List ℤ
  available_schools : List (ℤ × String)
  data : List EGRow
  average_completion_rate : JV
  statistics : EGStats
  school_breakdown : Option (List BreakRow)
deriving DecidableEq, Repr

/-- `sorted(set(enrol years) & set(grad years))` — the available years. -/
def egAllYears (enrolC gradC : List CRow) : List ℤ :=
  isortBy intLeB
    (dedupFirst ((enrolC.map (fun c => c.year)).filter
      (fun y => (gradC.map (fun c => c.year)).contains y)))

/-- The year-range filter `(df["year"] >= start) & (df["year"] <= end)`. -/
def rangeFilter (s e : ℤ) (rows : List CRow) : List CRow :=
  rows.filter (fun c => s ≤ c.year ∧ c.year ≤ e)

/-- The optional school filter `df[df["school_id"] == school_id]`. -/
def schoolFilter (school_id? : Option ℤ) (rows : List CRow) : List CRow :=
  match school_id? with
  | some sid => rows.filter (fun c => c.school_id = sid)
  | none => rows

/-- `df.groupby("year")[col].sum().reset_index()`. -/
def byYearSum (rows : List CRow) : List (ℤ × ℚ) :=
  (pdGroupBy intLeB (fun c : CRow => c.year) rows).map
    (fun g => (g.1, psum (g.2.map (fun c => c.val))))

/-- The sorted key list of the outer merge of the two per-year
aggregates (`pd.merge(..., on="year", how="outer")` followed by
`sort_values("year")`). -/
def outerYears (e g : List (ℤ × ℚ)) : List ℤ :=
  isortBy intLeB (dedupFirst (e.map Prod.fst ++ g.map Prod.fst))

/-- The outer-merged per-year table `(year, enrolment, graduates)`; a year
absent from one side carries a missing value there. -/
def mergedByYear (e g : List (ℤ × ℚ)) : List (ℤ × Option ℚ × Option ℚ) :=
  (outerYears e g).map (fun y =>
    (y, (e.find? (fun p => p.1 = y)).map Prod.snd,
      (g.find? (fun p => p.1 = y)).map Prod.snd))

/-- Assemble the `data` rows of `enrollment_graduate_analysis` from the
merged table: completion rate, both growth columns, and the NaN-to-null
guards of the final dict construction. -/
def egData (school_name : String) (merged : List (ℤ × Option ℚ × Option ℚ)) :
    List EGRow :=
  let completion := merged.map (fun m => completionOf m.2.2 m.2.1)
  let eGrowth := pct_change (merged.map (fun m => m.2.1))
  let gGrowth := pct_change (merged.map (fun m => m.2.2))
  (merged.zip (completion.zip (eGrowth.zip gGrowth))).map (fun z =>
    ⟨z.1.1, school_name, jvTrunc z.1.2.1, jvTrunc z.1.2.2,
      jvGuard z.2.1, jvGuardRound 1 z.2.2.1, jvGuardRound 1 z.2.2.2⟩)

/-- The `statistics` mapping: totals over the merged columns (a pandas sum
is never NaN, so the `pd.notna` guard on `int(...)` always passes), the
two trend slopes and their interpretations.  The year column of the
merged table is a groupby key and is never missing, so the
`LinAlgError` branch of `calculate_trend` is unreachable at these two
call sites (`calculate_trend_int_years_ok`); the `.error` default of the
match is arbitrary. -/
def egStats (merged : List (ℤ × Option ℚ × Option ℚ)) : EGStats :=
  let enrol_trend :=
    match calculate_trend (merged.map (fun m => some (mkRat m.1 1)))
        (merged.map (fun m => m.2.1)) with
    | .ok t => t
    | .error _ => none
  let grad_trend :=
    match calculate_trend (merged.map (fun m => some (mkRat m.1 1)))
        (merged.map (fun m => m.2.2)) with
    | .ok t => t
    | .error _ => none
  { total_enrolment := jvTrunc (some (psum (merged.map (fun m => m.2.1))))
    total_graduates := jvTrunc (some (psum (merged.map (fun m => m.2.2))))
    enrolment_trend := enrol_trend
    graduates_trend := grad_trend
    enrolment_trend_interpretation := get_trend_interpretation enrol_trend
    graduates_trend_interpretation := get_trend_interpretation grad_trend }

/-- The resolved display name: first filtered enrolment row's school name
(or `"Unknown"`) when a school filter is given, else `"All Schools"`. -/
def egSchoolName (school_id? : Option ℤ) (enrolS : List CRow) : String :=
  match school_id? with
  | some _ => (enrolS.head?.map (fun c => c.school_name)).getD "Unknown"
  | none => "All Schools"

/-- `enrollment_graduate_analysis`: clean both counts, keep the combined
`MF` rows, intersect the year sets of the two relations for
`available_years`, default the year range to its min/max (2010/2023 when
the intersection is empty), range-filter both relations, optionally filter
to one school, sum each by year, outer-merge the two per-year aggregates
on year (sorted ascending), derive completion rate and year-over-year
growth, and compute totals, trends and the school breakdown. -/
def enrollment_graduate_analysis (enrol : List EnrolRow) (grad : List GradRow)
    (start_year? end_year? : Option ℤ) (school_id? : Option ℤ) : EGResult :=
  let enrolC := cleanMF_enrol enrol
  let gradC := cleanMF_grad grad
  let all_years := egAllYears enrolC gradC
  let start_year := start_year?.getD (all_years.head?.getD 2010)
  let end_year := end_year?.getD (all_years.getLast?.getD 2023)
  let enrolF := rangeFilter start_year end_year enrolC
  let gradF := rangeFilter start_year end_year gradC
  let enrolS := schoolFilter school_id? enrolF
  let gradS := schoolFilter school_id? gradF
  let school_name := egSchoolName school_id? enrolS
  let merged := mergedByYear (byYearSum enrolS) (byYearSum gradS)
  { start_year := start_year
    end_year := end_year
    school_name := school_name
    available_years := all_years
    available_schools := dedupFirst (enrolF.map (fun c => (c.school_id, c.school_name)))
    data := egData school_name merged
    average_completion_rate :=
      jvGuardRound 1 (pfMean (merged.map (fun m => completionOf m.2.2 m.2.1)))
    statistics := egStats merged
    school_breakdown :=
      match school_id? with
      | none => some (get_school_breakdown enrolF gradF start_year end_year)
      | some _ => none }

end EnrollmentAnalysis

end Analytics

deriving instance DecidableEq for Except

/-! ## Theorems -/

attribute [local semireducible] Rat.add Rat.mul Rat.sub Rat.inv


open Analytics
open Analytics.EmploymentTrends

/-- Under a duplicate-free key column, filtering the mapping relation for
one key yields exactly the rows of `find?` — at most one row. -/
theorem filter_eq_find_toList {β : Type} (keyR : β → ℤ) (k : ℤ)
    (l : List β) (h : (l.map keyR).Nodup) :
    l.filter (fun b => keyR b = k) = (l.find? (fun b => keyR b = k)).toList := by
  induction l with
  | nil => rfl
  | cons b t ih =>
    rw [List.map_cons, List.nodup_cons] at h
    by_cases hb : keyR b = k
    · have ht : t.filter (fun b => decide (keyR b = k)) = [] := by
        rw [List.filter_eq_nil_iff]
        intro x hx
        simp only [decide_eq_true_eq]
        intro hxk
        exact h.1 (by rw [hb, ← hxk]; exact List.mem_map_of_mem keyR hx)
      simp [List.filter_cons, List.find?, hb, ht]
    · simp [List.filter_cons, List.find?, hb, ih h.2]

/-- Under a duplicate-free mapping key column, the left join emits exactly
one output row per input row, carrying the unique match (or `none`). -/
theorem mergeLeft_eq_map_find {α β : Type} (keyL : α → ℤ) (keyR : β → ℤ)
    (left : List α) (right : List β) (h : (right.map keyR).Nodup) :
    mergeLeft keyL keyR left right
      = left.map (fun a => (a, right.find? (fun b => keyR b = keyL a))) := by
  induction left with
  | nil => rfl
  | cons a rest ih =>
    have hf := filter_eq_find_toList keyR (keyL a) right h
    cases hfind : right.find? (fun b => keyR b = keyL a) with
    | none =>
      rw [hfind] at hf
      simp [mergeLeft, hf, hfind, ih]
    | some b =>
      rw [hfind] at hf
      simp [mergeLeft, hf, hfind, ih]

/-- C1: every query function returns a well-formed empty result on a
filter matching zero rows, without raising.  The code does not:
`employment_by_degree` always raises `NameError` (its line 162 evaluates
the never-assigned name `merged_df`), and `salary_employment_correlation`
with a school filter matching no rows reaches `idxmax` on an empty
aggregation, which raises `ValueError`. -/
theorem claim_C1 :
    (∀ (rows : List GESRow) (lookup : List LookupRow) (year : ℤ)
        (school metric : String),
        employment_by_degree rows lookup year school metric
          = .error (.nameError "merged_df"))
    ∧ SalaryCorrelation.salary_employment_correlation
        [⟨2023, 1, "Eng", "CS", some "90", some "85", some "4000", some "3800"⟩]
        [⟨1, "Alpha U"⟩] (some 2023) (some "Zed U")
        = .error .valueError :=
  ⟨fun _ _ _ _ _ => rfl, by decide⟩

/-- C2 (amended): the left join on `school_id` preserves the row count of
the primary relation and resolves an unmatched id to a missing name — for
every mapping relation whose `school_id` column is duplicate-free
(including the empty mapping).  When the mapping relation contains
duplicate `school_id` values the join fans rows out instead of picking the
first occurrence (see the counterexample). -/
theorem claim_C2 :
    ∀ (rows : List GESRow) (lookup : List LookupRow),
      (lookup.map LookupRow.school_id).Nodup →
      (mergeLeft (fun r => r.school_id) (fun l => l.school_id) rows lookup
          = rows.map (fun r => (r, lookup.find? (fun l => l.school_id = r.school_id)))
        ∧ (mergeLeft (fun r => r.school_id) (fun l => l.school_id) rows lookup).length
            = rows.length
        ∧ ∀ r ∈ rows, (∀ l ∈ lookup, l.school_id ≠ r.school_id) →
            (r, (none : Option LookupRow))
              ∈ mergeLeft (fun r => r.school_id) (fun l => l.school_id) rows lookup) := by
  intro rows lookup h
  have he : mergeLeft (fun r => r.school_id) (fun l => l.school_id) rows lookup
      = rows.map (fun r => (r, lookup.find? (fun l => l.school_id = r.school_id))) :=
    mergeLeft_eq_map_find (fun r : GESRow => r.school_id)
      (fun l : LookupRow => l.school_id) rows lookup h
  refine ⟨he, by rw [he]; exact List.length_map _ _, ?_⟩
  intro r hr hnone
  have hfn : lookup.find? (fun l => l.school_id = r.school_id) = none := by
    apply List.find?_eq_none.mpr
    intro x hx
    simp only [decide_eq_true_eq]
    exact hnone x hx
  have hm : (r, lookup.find? (fun l => l.school_id = r.school_id))
      ∈ rows.map (fun r => (r, lookup.find? (fun l => l.school_id = r.school_id))) :=
    List.mem_map_of_mem
      (fun r : GESRow => (r, lookup.find? (fun l => l.school_id = r.school_id))) hr
  rw [hfn] at hm
  rw [he]
  exact hm

/-- Witness for C2: a two-school duplicate-free lookup, one matched row. -/
theorem claim_C2_witness :
    (mergeLeft (fun r : GESRow => r.school_id) (fun l : LookupRow => l.school_id)
        [⟨2023, 1, "Eng", "CS", none, none, none, none⟩]
        [⟨1, "Alpha U"⟩, ⟨2, "Beta U"⟩]).length = 1 :=
  (claim_C2 [⟨2023, 1, "Eng", "CS", none, none, none, none⟩]
    [⟨1, "Alpha U"⟩, ⟨2, "Beta U"⟩] (by decide)).2.1

/-- Counterexample for C2: a mapping with a duplicate `school_id` fans the
single primary row out into two output rows (pandas `how="left"` joins
against every matching right row), rather than keeping the first
occurrence only. -/
theorem claim_C2_cex :
    mergeLeft (fun r : GESRow => r.school_id) (fun l : LookupRow => l.school_id)
        [⟨2023, 1, "Eng", "CS", none, none, none, none⟩] [⟨1, "A"⟩, ⟨1, "B"⟩]
      = [(⟨2023, 1, "Eng", "CS", none, none, none, none⟩, some ⟨1, "A"⟩),
         (⟨2023, 1, "Eng", "CS", none, none, none, none⟩, some ⟨1, "B"⟩)]
    ∧ (mergeLeft (fun r : GESRow => r.school_id) (fun l : LookupRow => l.school_id)
        [⟨2023, 1, "Eng", "CS", none, none, none, none⟩] [⟨1, "A"⟩, ⟨1, "B"⟩]).length
        ≠ 1 := by decide

/-- C5 (amended): both numeric normalizers are pure and total, map a
missing input to a missing output, map every placeholder token to
missing, and strip a trailing `%`; the salary-module normalizer also
strips thousands-separator commas (`"1,234"` → 1234), but the
employment-module normalizer does not — `"1,234"` coerces to missing
there. -/
theorem claim_C5 :
    clean_employment_column none = none
    ∧ SalaryCorrelation.clean_numeric_column none = none
    ∧ clean_employment_column (some "") = none
    ∧ clean_employment_column (some "N.A.") = none
    ∧ clean_employment_column (some "na") = none
    ∧ clean_employment_column (some "NA") = none
    ∧ clean_employment_column (some "-") = none
    ∧ SalaryCorrelation.clean_numeric_column (some "") = none
    ∧ SalaryCorrelation.clean_numeric_column (some "N.A.") = none
    ∧ SalaryCorrelation.clean_numeric_column (some "na") = none
    ∧ SalaryCorrelation.clean_numeric_column (some "NA") = none
    ∧ SalaryCorrelation.clean_numeric_column (some "-") = none
    ∧ clean_employment_column (some "12.5%") = some (25/2 : ℚ)
    ∧ SalaryCorrelation.clean_numeric_column (some "12.5%") = some (25/2 : ℚ)
    ∧ SalaryCorrelation.clean_numeric_column (some "1,234") = some (mkRat 1234 1)
    ∧ clean_employment_column (some "1,234") = none := by decide

/-- Counterexample for C5: the employment normalizer does not strip
commas, so `"1,234"` coerces to missing instead of 1234. -/
theorem claim_C5_cex :
    clean_employment_column (some "1,234") = none
    ∧ clean_employment_column (some "1,234") ≠ some (mkRat 1234 1) := by decide

/-- C7: a missing aggregate must surface as null.  The code instead leaks
float NaN in two places: the `avg_employment_rate_overall` /
`avg_employment_rate_ft_perm` KPIs of `employment_trend` (no `pd.notna`
guard) and the per-school rate cells of `employment_by_school` (rows are
appended to the result without a guard).  Both are exhibited here. -/
theorem claim_C7 :
    employment_trend [⟨2023, 1, "Eng", "CS", some "N.A.", some "N.A.", none, none⟩]
      = .ok { trend := [⟨2023, none, none⟩]
              kpis := { stabilityRatio := none
                        avg_employment_rate_overall := some .nan
                        avg_employment_rate_ft_perm := some .nan
                        trend_strength := none } }
    ∧ employment_by_school
        [⟨2023, 1, "Eng", "CS", some "87.1", some "N.A.", none, none⟩,
         ⟨2023, 1, "Eng", "EE", some "87.4", some "N.A.", none, none⟩]
        [⟨1, "Alpha U"⟩] 2023
      = { year := 2023
          schools := [⟨"Alpha U", some (.num (436/5 : ℚ)), some .nan⟩]
          total_schools := 1 } := by decide

/-- C3 (amended): the stability ratio is `None` whenever an operand is
missing or the overall rate is zero, and `ft/overall` otherwise; the
completion rate equals `round(graduates/enrolment*100, 1)` when both
operands are present and enrolment is nonzero (zero graduates giving the
defined value 0.0), and is missing (NaN) when an operand is missing or on
`0/0` — but a zero enrolment with nonzero graduates produces +inf, which
the `pd.notna` guard does not catch (see the counterexample). -/
theorem claim_C3 :
    (∀ ft : Option ℚ, stabilityOf none ft = none)
    ∧ (∀ ov : Option ℚ, stabilityOf ov none = none)
    ∧ (∀ ft : Option ℚ, stabilityOf (some 0) ft = none)
    ∧ (∀ q f : ℚ, q ≠ 0 → stabilityOf (some q) (some f) = some (.num (f / q)))
    ∧ (∀ g : Option ℚ, EnrollmentAnalysis.completionOf g none = .nan)
    ∧ (∀ e : Option ℚ, EnrollmentAnalysis.completionOf none e = .nan)
    ∧ (∀ gv ev : ℚ, ev ≠ 0 →
        EnrollmentAnalysis.completionOf (some gv) (some ev)
          = .num (roundTo 1 (gv / ev * 100)))
    ∧ EnrollmentAnalysis.completionOf (some 0) (some 100) = .num 0
    ∧ (∀ gv : ℚ, 0 < gv → EnrollmentAnalysis.completionOf (some gv) (some 0) = .inf) := by
  refine ⟨fun ft => rfl, fun ov => ?_, fun ft => ?_, fun q f hq => ?_,
    fun g => ?_, fun e => ?_, fun gv ev he => ?_, ?_, fun gv hg => ?_⟩
  · cases ov <;> rfl
  · cases ft <;> simp [stabilityOf]
  · simp [stabilityOf, hq]
  · cases g <;> rfl
  · rfl
  · simp [EnrollmentAnalysis.completionOf, he]
  · decide
  · simp [EnrollmentAnalysis.completionOf, hg, hg.ne']

/-- Witness for C3: the guarded branches at concrete operands. -/
theorem claim_C3_witness :
    stabilityOf (some 80) (some 60) = some (.num ((60 : ℚ) / 80))
    ∧ EnrollmentAnalysis.completionOf (some 50) (some 200)
        = .num (roundTo 1 ((50 : ℚ) / 200 * 100))
    ∧ EnrollmentAnalysis.completionOf (some 5) (some 0) = .inf :=
  ⟨claim_C3.2.2.2.1 80 60 (by norm_num),
   claim_C3.2.2.2.2.2.2.1 50 200 (by norm_num),
   claim_C3.2.2.2.2.2.2.2.2 5 (by norm_num)⟩

/-- Counterexample for C3: a year with enrolment 0 and graduates 5 puts
`+inf` — not a missing/null marker — into the `completion_rate` field of
the result (`pd.notna(inf)` is true, so the guard passes it through). -/
theorem claim_C3_cex :
    (EnrollmentAnalysis.enrollment_graduate_analysis
        [⟨2020, "MF", 1, "A", some "0"⟩] [⟨2020, "MF", 1, "A", some "5"⟩]
        none none none).data
      = [⟨2020, "All Schools", some (.num 0), some (.num 5), some .inf, none, none⟩] := by
  decide

/-- When every year is present, `calculate_trend` cannot raise: the mask
keeps only zip positions, so every kept year is a member of the year
list. -/
theorem calculate_trend_no_linalg {years vals : List (Option ℚ)}
    (h : ∀ y ∈ years, y.isSome) :
    ∃ t, EnrollmentAnalysis.calculate_trend years vals = .ok t := by
  by_cases hl : (EnrollmentAnalysis.maskedPairs years vals).length < 2
  · exact ⟨none, by unfold EnrollmentAnalysis.calculate_trend; rw [if_pos hl]⟩
  · have hany : (EnrollmentAnalysis.maskedPairs years vals).any
        (fun p => p.1.isNone) = false := by
      rw [List.any_eq_false]
      intro p hp
      unfold EnrollmentAnalysis.maskedPairs at hp
      have hz : p ∈ years.zip vals := List.mem_of_mem_filter hp
      obtain ⟨a, b⟩ := p
      have ha := h a (List.of_mem_zip hz).1
      simp only [Option.isNone]
      cases a with
      | none => simp [Option.isSome] at ha
      | some v => simp
    refine ⟨some (.num (roundTo 1 (lsqSlope
      ((EnrollmentAnalysis.maskedPairs years vals).map
        (fun p => (p.1.getD 0, p.2.getD 0)))))), ?_⟩
    unfold EnrollmentAnalysis.calculate_trend
    rw [if_neg hl, hany]
    simp

/-- The two `calculate_trend` call sites inside the enrolment analysis
pass the year column of the merged table, whose entries are all present —
the `LinAlgError` branch is unreachable there. -/
theorem calculate_trend_int_years_ok (ms : List (ℤ × Option ℚ × Option ℚ))
    (vals : List (Option ℚ)) :
    ∃ t, EnrollmentAnalysis.calculate_trend
      (ms.map (fun m => some (mkRat m.1 1))) vals = .ok t := by
  apply calculate_trend_no_linalg
  intro y hy
  obtain ⟨m, hm, he⟩ := List.mem_map.mp hy
  cases he
  rfl

/-- C4 (amended): both trend-slope functions return `None` (not zero, not
an error) when fewer than 2 valid pairs remain, and the three example
slopes hold; `compute_trend_strength` drops pairs where either component
is missing, but `calculate_trend` masks only on the VALUES — a missing
year at a kept position is not dropped, and `np.polyfit` then raises
`numpy.linalg.LinAlgError` instead of producing the `None` signal (see
the counterexample). -/
theorem claim_C4 :
    (∀ trend : List TrendRow, (validTrendPairs trend).length < 2 →
        compute_trend_strength trend = none)
    ∧ (∀ years values : List (Option ℚ),
        (EnrollmentAnalysis.maskedPairs years values).length < 2 →
        EnrollmentAnalysis.calculate_trend years values = .ok none)
    ∧ compute_trend_strength
        [(2020, some 10, none), (2021, some 10, none), (2022, some 10, none)] = some 0
    ∧ compute_trend_strength [(2020, some 10, none)] = none
    ∧ compute_trend_strength [(2020, some 10, none), (2021, some 20, none)] = some 10
    ∧ EnrollmentAnalysis.calculate_trend [some 2020, some 2021, some 2022]
        [some 10, some 10, some 10] = .ok (some (.num 0))
    ∧ EnrollmentAnalysis.calculate_trend [some 2020] [some 10] = .ok none
    ∧ EnrollmentAnalysis.calculate_trend [some 2020, some 2021] [some 10, some 20]
        = .ok (some (.num 10)) := by
  refine ⟨fun trend h => ?_, fun years values h => ?_, ?_, ?_, ?_, ?_, ?_, ?_⟩
  · unfold compute_trend_strength
    rw [if_pos h]
  · unfold EnrollmentAnalysis.calculate_trend
    rw [if_pos h]
  all_goals decide

/-- Witness for C4: the insufficient-data branch at empty inputs. -/
theorem claim_C4_witness :
    compute_trend_strength ([] : List TrendRow) = none
    ∧ EnrollmentAnalysis.calculate_trend [] [] = .ok none :=
  ⟨claim_C4.1 [] (by decide), claim_C4.2.1 [] [] (by decide)⟩

/-- Counterexample for C4: with years `[NaN, NaN, 2020]` and values
`[1, 2, 3]` only one (year, value) pair is fully valid, so the claim
demands the undefined/None signal; `calculate_trend` instead keeps all
three positions (its mask checks only the values), calls `np.polyfit`
with NaN in x, and raises `numpy.linalg.LinAlgError` — an exception, not
the explicit `None` signal. -/
theorem claim_C4_cex :
    EnrollmentAnalysis.calculate_trend [none, none, some 2020] [some 1, some 2, some 3]
      = .error .linAlgError
    ∧ (Except.error PyErr.linAlgError : Except PyErr (Option PyFloat)) ≠ .ok none := by
  decide

/-- Dropping a position whose first component is missing leaves the valid
pairs unchanged. -/
theorem validPairs_cons_none_left (xs ys : List (Option ℚ)) (y : Option ℚ) :
    SalaryCorrelation.validPairs (none :: xs) (y :: ys)
      = SalaryCorrelation.validPairs xs ys := by
  cases y <;> simp [SalaryCorrelation.validPairs]

/-- Dropping a position whose second component is missing leaves the
valid pairs unchanged. -/
theorem validPairs_cons_none_right (xs ys : List (Option ℚ)) (x : Option ℚ) :
    SalaryCorrelation.validPairs (x :: xs) (none :: ys)
      = SalaryCorrelation.validPairs xs ys := by
  cases x <;> simp [SalaryCorrelation.validPairs]

/-- The correlation depends only on the valid pairs. -/
theorem calculate_correlation_congr {xs ys as bs : List (Option ℚ)}
    (h : SalaryCorrelation.validPairs xs ys = SalaryCorrelation.validPairs as bs) :
    SalaryCorrelation.calculate_correlation xs ys
      = SalaryCorrelation.calculate_correlation as bs := by
  unfold SalaryCorrelation.calculate_correlation
  rw [h]

/-- C6: the Pearson-correlation computation deletes pairs row-wise when
either coordinate is missing, is undefined below 2 valid pairs, is
undefined (never NaN) on zero variance — `correlation([1,2],[5,5])` —
and yields 1.0 on the perfectly correlated `[1,2,3]` against itself. -/
theorem claim_C6 :
    (∀ (xs ys : List (Option ℚ)) (y : Option ℚ),
        SalaryCorrelation.calculate_correlation (none :: xs) (y :: ys)
          = SalaryCorrelation.calculate_correlation xs ys)
    ∧ (∀ (xs ys : List (Option ℚ)) (x : Option ℚ),
        SalaryCorrelation.calculate_correlation (x :: xs) (none :: ys)
          = SalaryCorrelation.calculate_correlation xs ys)
    ∧ (∀ xs ys : List (Option ℚ), (SalaryCorrelation.validPairs xs ys).length < 2 →
        SalaryCorrelation.calculate_correlation xs ys = none)
    ∧ SalaryCorrelation.calculate_correlation [some 1, some 2] [some 5, some 5] = none
    ∧ SalaryCorrelation.calculate_correlation [some 1, some 2, some 3]
        [some 1, some 2, some 3] = some 1 := by
  refine ⟨fun xs ys y => calculate_correlation_congr (validPairs_cons_none_left xs ys y),
    fun xs ys x => calculate_correlation_congr (validPairs_cons_none_right xs ys x),
    fun xs ys h => ?_, ?_, ?_⟩
  · unfold SalaryCorrelation.calculate_correlation
    rw [if_pos h]
  all_goals decide

/-- Witness for C6: the insufficient-data branch at a single valid pair. -/
theorem claim_C6_witness :
    SalaryCorrelation.calculate_correlation [some 1, none] [some 5, some 7] = none :=
  claim_C6.2.2.1 [some 1, none] [some 5, some 7] (by decide)

/-- A group where every value is missing has a missing mean and a zero
sum. -/
theorem psum_pmean_all_none (l : List (Option ℚ)) (h : ∀ x ∈ l, x = none) :
    pmean l = none ∧ psum l = 0 := by
  have hv : l.filterMap id = [] := by
    rw [List.filterMap_eq_nil_iff]
    intro a ha
    exact h a ha
  constructor
  · simp [pmean, hv]
  · simp [psum, hv]

/-- C8 (amended): the mean reducer ignores missing values and yields
missing for an all-missing group; the sum reducer also excludes missing
values, but an all-missing group sums to 0 (pandas `sum` with the default
`min_count=0`), not to missing — and in the school-breakdown output the
totals are additionally rendered with `else 0`, so "no data" and "zero
activity" are indistinguishable there (see the counterexample). -/
theorem claim_C8 :
    (∀ l : List (Option ℚ), (∀ x ∈ l, x = none) → pmean l = none ∧ psum l = 0)
    ∧ (∀ l : List (Option ℚ), pmean (none :: l) = pmean l ∧ psum (none :: l) = psum l) := by
  refine ⟨psum_pmean_all_none, fun l => ?_⟩
  have hv : (none :: l).filterMap (fun a => id a) = l.filterMap (fun a => id a) :=
    List.filterMap_cons_none rfl
  constructor
  · simp only [pmean]
    rw [hv]
  · simp only [psum]
    rw [hv]

/-- Witness for C8: the two-element all-missing group. -/
theorem claim_C8_witness : pmean [none, none] = none ∧ psum [none, none] = 0 :=
  claim_C8.1 [none, none] (by decide)

/-- Counterexample for C8: school (1, "A") has only missing enrolment
values, yet its breakdown row reports `total_enrolment = 0` — the integer
zero, not a missing marker (the claim demands missing). -/
theorem claim_C8_cex :
    psum [none, none] = 0
    ∧ EnrollmentAnalysis.get_school_breakdown
        [⟨2020, 1, "A", none⟩, ⟨2021, 1, "A", none⟩] [⟨2020, 1, "A", some 3⟩] 2020 2021
      = [⟨1, "A", 0, 3, some .inf⟩] := by
  decide


/-- C9 (amended): employment-rate metrics are rounded to 1 decimal place
(a by-school mean of 90.25 is emitted as 90.2), salary metrics to the
nearest whole unit (a mean gross of 4000.5 is emitted as 4000),
`compute_trend_strength` and the correlation coefficient to 3 decimal
places — but the enrolment/graduates trend slopes of `calculate_trend`
are rounded to 1 decimal place, not 3 (see the counterexample). -/
theorem claim_C9 :
    (∀ trend : List TrendRow, 2 ≤ (validTrendPairs trend).length →
        compute_trend_strength trend = some (roundTo 3 (lsqSlope (validTrendPairs trend))))
    ∧ (∀ years values : List (Option ℚ),
        2 ≤ (EnrollmentAnalysis.maskedPairs years values).length →
        (EnrollmentAnalysis.maskedPairs years values).all (fun p => p.1.isSome) →
        EnrollmentAnalysis.calculate_trend years values
          = .ok (some (.num (roundTo 1 (lsqSlope
              ((EnrollmentAnalysis.maskedPairs years values).map
                (fun p => (p.1.getD 0, p.2.getD 0))))))))
    ∧ employment_by_school
        [⟨2023, 1, "Eng", "CS", some "90.1", some "80", none, none⟩,
         ⟨2023, 1, "Eng", "EE", some "90.4", some "80", none, none⟩]
        [⟨1, "Alpha U"⟩] 2023
      = { year := 2023
          schools := [⟨"Alpha U", some (.num (451/5 : ℚ)), some (.num 80)⟩]
          total_schools := 1 }
    ∧ SalaryCorrelation.salary_employment_correlation
        [⟨2023, 1, "Eng", "CS", some "90", none, some "4000", some "3500"⟩,
         ⟨2023, 1, "Eng", "EE", some "92", none, some "4001", some "3600"⟩]
        [⟨1, "Alpha U"⟩] none none
      = .ok
        { year := 2023
          available_years := [2023]
          available_schools := ["Alpha U"]
          selected_school := none
          data := [⟨"Eng", some (.num 91), some (.num (mkRat 4000 1))⟩]
          correlation_coefficient := none
          statistics :=
            { avg_median_salary := some (.num (mkRat 4000 1))
              avg_employment_rate := some (.num 91)
              highest_salary_school := ⟨"Eng", some (.num (mkRat 4000 1)), some (.num 91)⟩
              lowest_salary_school := ⟨"Eng", some (.num (mkRat 4000 1)), some (.num 91)⟩
              total_schools_analyzed := 1 } }
    ∧ SalaryCorrelation.calculate_correlation [some 1, some 2, some 3]
        [some 1, some 2, some 4] = some (491/500 : ℚ) := by
  refine ⟨fun trend h => ?_, fun years values h2 hall => ?_, ?_, ?_, ?_⟩
  · unfold compute_trend_strength
    rw [if_neg (Nat.not_lt.mpr h)]
  · unfold EnrollmentAnalysis.calculate_trend
    rw [if_neg (Nat.not_lt.mpr h2)]
    have hnone : (EnrollmentAnalysis.maskedPairs years values).any
        (fun p => p.1.isNone) = false := by
      rw [List.any_eq_false]
      intro p hp
      have hs := List.all_eq_true.mp hall p hp
      simp only [Option.isNone]
      cases hpp : p.1 with
      | none => rw [hpp] at hs; simp [Option.isSome] at hs
      | some v => simp
    rw [hnone]
    simp
  all_goals decide

/-- Witness for C9: the rounded-slope branches at two-point inputs. -/
theorem claim_C9_witness :
    compute_trend_strength [(2020, some 1, none), (2021, some 2, none)]
      = some (roundTo 3 (lsqSlope (validTrendPairs
          [(2020, some 1, none), (2021, some 2, none)])))
    ∧ EnrollmentAnalysis.calculate_trend [some 2020, some 2021] [some 1, some 2]
      = .ok (some (.num (roundTo 1 (lsqSlope
          ((EnrollmentAnalysis.maskedPairs [some 2020, some 2021] [some 1, some 2]).map
            (fun p => (p.1.getD 0, p.2.getD 0))))))) :=
  ⟨claim_C9.1 _ (by decide),
   claim_C9.2.1 _ _ (by decide) (by decide)⟩

/-- Counterexample for C9: on years `[2020, 2022, 2023]` and values
`[0, 0, 1]` the least-squares slope is `2/7 ≈ 0.2857`; `calculate_trend`
returns 0.3 (1 decimal place) where the claimed 3-decimal rounding would
give 0.286. -/
theorem claim_C9_cex :
    EnrollmentAnalysis.calculate_trend [some 2020, some 2022, some 2023]
        [some 0, some 0, some 1] = .ok (some (.num (3/10 : ℚ)))
    ∧ roundTo 3 (lsqSlope [((2020 : ℚ), (0 : ℚ)), (2022, 0), (2023, 1)]) = (143/500 : ℚ)
    ∧ (3/10 : ℚ) ≠ (143/500 : ℚ) := by
  decide

/-- Membership in an insertion is membership in the parts. -/
theorem mem_insertB {le : α → α → Bool} {x a : α} {l : List α} :
    a ∈ insertB le x l ↔ a = x ∨ a ∈ l := by
  induction l with
  | nil => simp [insertB]
  | cons y ys ih =>
    simp only [insertB]
    by_cases h : le x y
    · simp [h]
    · simp [h, ih]
      tauto

/-- Sorting does not change the members. -/
theorem mem_isortBy {le : α → α → Bool} {a : α} {l : List α} :
    a ∈ isortBy le l ↔ a ∈ l := by
  induction l with
  | nil => simp [isortBy]
  | cons x xs ih => simp [isortBy, mem_insertB, ih]

/-- Members of the deduplicated list come from the original list. -/
theorem mem_dedupFirst_go [DecidableEq α] {a : α} :
    ∀ (l seen : List α), a ∈ dedupFirst.go l seen → a ∈ l := by
  intro l
  induction l with
  | nil => intro seen h; simp [dedupFirst.go] at h
  | cons x xs ih =>
    intro seen h
    simp only [dedupFirst.go] at h
    by_cases hx : x ∈ seen
    · rw [if_pos hx] at h
      exact List.mem_cons_of_mem _ (ih _ h)
    · rw [if_neg hx] at h
      rcases List.mem_cons.mp h with h1 | h2
      · exact h1 ▸ List.mem_cons_self _ _
      · exact List.mem_cons_of_mem _ (ih _ h2)

/-- `dedupFirst` only keeps original members. -/
theorem mem_dedupFirst [DecidableEq α] {a : α} {l : List α}
    (h : a ∈ dedupFirst l) : a ∈ l :=
  mem_dedupFirst_go l [] h

/-- A group key produced by `pdGroupBy` is a key of some input row. -/
theorem pdGroupBy_key_mem [DecidableEq K] {le : K → K → Bool} {key : R → K}
    {rows : List R} {k : K} {g : List R}
    (h : (k, g) ∈ pdGroupBy le key rows) : k ∈ rows.map key := by
  unfold pdGroupBy at h
  obtain ⟨k', hk', he⟩ := List.mem_map.mp h
  cases he
  exact mem_dedupFirst (mem_isortBy.mp hk')

/-- A year carried by `byYearSum` comes from some input row. -/
theorem byYearSum_year_mem {rows : List EnrollmentAnalysis.CRow} {y : ℤ}
    (h : y ∈ (EnrollmentAnalysis.byYearSum rows).map Prod.fst) :
    ∃ c ∈ rows, EnrollmentAnalysis.CRow.year c = y := by
  unfold EnrollmentAnalysis.byYearSum at h
  obtain ⟨p, hp, he⟩ := List.mem_map.mp h
  obtain ⟨⟨k, grp⟩, hkg, he2⟩ := List.mem_map.mp hp
  cases he2
  cases he
  obtain ⟨c, hc, hcy⟩ := List.mem_map.mp (pdGroupBy_key_mem hkg)
  exact ⟨c, hc, hcy⟩

/-- A key of the outer merge comes from one of the two aggregates. -/
theorem outerYears_mem {e g : List (ℤ × ℚ)} {y : ℤ}
    (h : y ∈ EnrollmentAnalysis.outerYears e g) :
    y ∈ e.map Prod.fst ∨ y ∈ g.map Prod.fst := by
  unfold EnrollmentAnalysis.outerYears at h
  exact List.mem_append.mp (mem_dedupFirst (mem_isortBy.mp h))

/-- A merged row's year is a key of the outer merge. -/
theorem mergedByYear_fst_mem {e g : List (ℤ × ℚ)} {m : ℤ × Option ℚ × Option ℚ}
    (h : m ∈ EnrollmentAnalysis.mergedByYear e g) :
    m.1 ∈ EnrollmentAnalysis.outerYears e g := by
  unfold EnrollmentAnalysis.mergedByYear at h
  obtain ⟨y, hy, he⟩ := List.mem_map.mp h
  cases he
  exact hy

/-- A data row's year is the year of some merged row. -/
theorem egData_year_mem {name : String} {merged : List (ℤ × Option ℚ × Option ℚ)}
    {r : EnrollmentAnalysis.EGRow} (h : r ∈ EnrollmentAnalysis.egData name merged) :
    ∃ m ∈ merged, r.year = m.1 := by
  simp only [EnrollmentAnalysis.egData] at h
  obtain ⟨⟨m, w⟩, hz, hze⟩ := List.mem_map.mp h
  cases hze
  exact ⟨m, (List.of_mem_zip hz).1, rfl⟩

/-- A row surviving the range filter satisfies the range. -/
theorem rangeFilter_year_bound {s e : ℤ} {rows : List EnrollmentAnalysis.CRow}
    {c : EnrollmentAnalysis.CRow} (h : c ∈ EnrollmentAnalysis.rangeFilter s e rows) :
    s ≤ c.year ∧ c.year ≤ e := by
  unfold EnrollmentAnalysis.rangeFilter at h
  have := List.of_mem_filter h
  simpa using this

/-- The school filter only discards rows. -/
theorem schoolFilter_subset {sid? : Option ℤ} {rows : List EnrollmentAnalysis.CRow}
    {c : EnrollmentAnalysis.CRow} (h : c ∈ EnrollmentAnalysis.schoolFilter sid? rows) :
    c ∈ rows := by
  cases sid? with
  | none => exact h
  | some sid => exact List.mem_of_mem_filter h

/-- Every data row assembled by the enrolment pipeline stays within the
year range used to filter the two relations. -/
theorem egPipeline_year_bound (s e : ℤ) (sid : Option ℤ) (name : String)
    (eC gC : List EnrollmentAnalysis.CRow) :
    ∀ r ∈ EnrollmentAnalysis.egData name
        (EnrollmentAnalysis.mergedByYear
          (EnrollmentAnalysis.byYearSum
            (EnrollmentAnalysis.schoolFilter sid (EnrollmentAnalysis.rangeFilter s e eC)))
          (EnrollmentAnalysis.byYearSum
            (EnrollmentAnalysis.schoolFilter sid (EnrollmentAnalysis.rangeFilter s e gC)))),
      s ≤ r.year ∧ r.year ≤ e := by
  intro r hr
  obtain ⟨m, hm, hy⟩ := egData_year_mem hr
  rcases outerYears_mem (mergedByYear_fst_mem hm) with h | h
  · obtain ⟨c, hc, hcy⟩ := byYearSum_year_mem h
    have hb := rangeFilter_year_bound (schoolFilter_subset hc)
    rw [hy, ← hcy]
    exact hb
  · obtain ⟨c, hc, hcy⟩ := byYearSum_year_mem h
    have hb := rangeFilter_year_bound (schoolFilter_subset hc)
    rw [hy, ← hcy]
    exact hb

/-- C10 (amended): `available_years` is the sorted intersection of the MF
year sets of the two relations and the default `start_year`/`end_year`
are its minimum and maximum; every output data row's year lies inside
`[start_year, end_year]` — but a year inside that span that is present in
only one relation still contributes a row through the outer join (see the
counterexample). -/
theorem claim_C10 :
    (∀ (enrol : List EnrollmentAnalysis.EnrolRow) (grad : List EnrollmentAnalysis.GradRow)
        (sy ey sid : Option ℤ) (r : EnrollmentAnalysis.EGRow),
        r ∈ (EnrollmentAnalysis.enrollment_graduate_analysis enrol grad sy ey sid).data →
        (EnrollmentAnalysis.enrollment_graduate_analysis enrol grad sy ey sid).start_year ≤ r.year
          ∧ r.year ≤ (EnrollmentAnalysis.enrollment_graduate_analysis enrol grad sy ey sid).end_year)
    ∧ (∀ (enrol : List EnrollmentAnalysis.EnrolRow) (grad : List EnrollmentAnalysis.GradRow)
        (sid : Option ℤ),
        (EnrollmentAnalysis.enrollment_graduate_analysis enrol grad none none sid).start_year
          = ((EnrollmentAnalysis.enrollment_graduate_analysis enrol grad none none sid).available_years).head?.getD 2010
        ∧ (EnrollmentAnalysis.enrollment_graduate_analysis enrol grad none none sid).end_year
          = ((EnrollmentAnalysis.enrollment_graduate_analysis enrol grad none none sid).available_years).getLast?.getD 2023) := by
  constructor
  · intro enrol grad sy ey sid r hr
    exact egPipeline_year_bound
      ((EnrollmentAnalysis.enrollment_graduate_analysis enrol grad sy ey sid).start_year)
      ((EnrollmentAnalysis.enrollment_graduate_analysis enrol grad sy ey sid).end_year)
      sid _ (EnrollmentAnalysis.cleanMF_enrol enrol) (EnrollmentAnalysis.cleanMF_grad grad) r hr
  · intro enrol grad sid
    exact ⟨rfl, rfl⟩

/-- Witness for C10: a single shared year, bounds attained. -/
theorem claim_C10_witness :
    (EnrollmentAnalysis.enrollment_graduate_analysis
        [⟨2020, "MF", 1, "A", some "8"⟩] [⟨2020, "MF", 1, "A", some "4"⟩]
        none none none).start_year ≤ 2020
    ∧ (2020 : ℤ) ≤ (EnrollmentAnalysis.enrollment_graduate_analysis
        [⟨2020, "MF", 1, "A", some "8"⟩] [⟨2020, "MF", 1, "A", some "4"⟩]
        none none none).end_year :=
  claim_C10.1 [⟨2020, "MF", 1, "A", some "8"⟩] [⟨2020, "MF", 1, "A", some "4"⟩]
    none none none
    ⟨2020, "All Schools", some (.num 8), some (.num 4), some (.num 50), none, none⟩
    (by decide)

/-- Counterexample for C10: with enrolment years {2010, 2012} and
graduate years {2010, 2011, 2012}, the intersection (available years) is
[2010, 2012], yet under default parameters the year 2011 — present in
only one relation — contributes an output data row via the outer join,
because the default filter is the RANGE [2010, 2012], not membership in
the intersection. -/
theorem claim_C10_cex :
    (EnrollmentAnalysis.enrollment_graduate_analysis
        [⟨2010, "MF", 1, "A", some "10"⟩, ⟨2012, "MF", 1, "A", some "12"⟩]
        [⟨2010, "MF", 1, "A", some "5"⟩, ⟨2011, "MF", 1, "A", some "6"⟩,
         ⟨2012, "MF", 1, "A", some "7"⟩]
        none none none).available_years = [2010, 2012]
    ∧ ((EnrollmentAnalysis.enrollment_graduate_analysis
        [⟨2010, "MF", 1, "A", some "10"⟩, ⟨2012, "MF", 1, "A", some "12"⟩]
        [⟨2010, "MF", 1, "A", some "5"⟩, ⟨2011, "MF", 1, "A", some "6"⟩,
         ⟨2012, "MF", 1, "A", some "7"⟩]
        none none none).data.map (fun r => r.year)) = [2010, 2011, 2012] := by decide
